import Mathlib

/-!
# Verification of the BSK sync engine (`backend/api/sync.py`, `backend/scheduler/sync_scheduler.py`)

Shallow embedding of the data-synchronization core of the BSK Service
Recommendation System: the paginated fetch loop, the DumpAll
truncate-and-insert replace, record sanitization, the manual upsert
classification, the sync-cursor bookkeeping of the `/sync` endpoint, and
the multi-table orchestration of the scheduler.  Each definition mirrors
one function of the Python source; theorems at the end settle the spec's
claims about them.
-/

namespace BskSync

/-- A JSON scalar as it appears in the external API's responses.
Mirrors the value space that `meta_response.get("total_no_of_records", 0)`
can produce in `sync_table_paginated` (Pattern B).  `jbool` is kept
separate because Python's `bool` is a subclass of `int`, so
`isinstance(True, int)` holds. -/
inductive JVal where
  | jint (n : Int)
  | jbool (b : Bool)
  | jstr (s : String)
  | jnull
  deriving DecidableEq, Repr

/-- `total_records = meta_response.get("total_no_of_records", 0)` followed by
`if not isinstance(total_records, int) or total_records < 0: total_records = 0`
(sync.py lines 494-497).  A missing field defaults to `0`; a non-integer or a
negative integer is replaced by `0`.  Python's `bool` passes the
`isinstance(..., int)` check and counts as `1`/`0`. -/
def extractTotal (totalField : Option JVal) : Int :=
  match totalField.getD (JVal.jint 0) with
  | JVal.jint n => if n < 0 then 0 else n
  | JVal.jbool b => if b then 1 else 0
  | _ => 0

/-- `math.ceil(total_records / page_size)` for positive integers
(sync.py line 507). -/
def ceilDivNat (a b : Nat) : Nat := (a + b - 1) / b

/-- The Pattern-B page loop of `sync_table_paginated` (sync.py lines 510-543),
parametrised by the remote page responses `resp` (page number ↦ records) and
by the per-page merge `upsert` (the value `upsert_data` returns for that
page's records).  Arguments: iterations remaining in
`range(1, max_pages + 2)`, the current page number, and the
`consecutive_empty` counter.  Returns the list of page numbers actually
requested and the accumulated `total_upserted`.
- An empty page increments the counter and, at `MAX_CONSECUTIVE_EMPTY = 3`,
  breaks out of the loop.
- A non-empty page resets the counter to 0, merges, and breaks if it holds
  fewer than `page_size` records (natural end). -/
def pageLoop (resp : Nat → List α) (upsert : List α → Nat) (pageSize : Nat) :
    Nat → Nat → Nat → List Nat × Nat
  | 0, _, _ => ([], 0)
  | rem + 1, page, consecEmpty =>
    let recs := resp page
    if recs.isEmpty then
      if 3 ≤ consecEmpty + 1 then ([page], 0)
      else
        let r := pageLoop resp upsert pageSize rem (page + 1) (consecEmpty + 1)
        (page :: r.1, r.2)
    else
      let cnt := upsert recs
      if recs.length < pageSize then ([page], cnt)
      else
        let r := pageLoop resp upsert pageSize rem (page + 1) 0
        (page :: r.1, cnt + r.2)

/-- Pattern B of `sync_table_paginated` (sync.py lines 482-546): the meta call
must carry `flow == "meta"` (`meta_response.get("flow", "")`), the announced
total is extracted and defaulted, a zero total returns `0` with no page
calls, and otherwise the page loop runs over
`range(1, max_pages + 2)` with `max_pages = ceil(total / page_size)`.
Returns the page numbers requested together with `total_upserted`, or the
raised error. -/
def syncPaginatedTable (flow : Option String) (totalField : Option JVal)
    (resp : Nat → List α) (upsert : List α → Nat) (pageSize : Nat) :
    Except String (List Nat × Nat) :=
  if flow.getD "" ≠ "meta" then
    Except.error "Unexpected API response: flow"
  else
    let total := (extractTotal totalField).toNat
    if total = 0 then Except.ok ([], 0)
    else
      let maxPages := ceilDivNat total pageSize
      Except.ok (pageLoop resp upsert pageSize (maxPages + 1) 1 0)

/-- Page numbers requested by a paginated run (`[]` when the run raised). -/
def callsOf (r : Except String (List Nat × Nat)) : List Nat :=
  match r with
  | Except.ok (c, _) => c
  | Except.error _ => []

/-! ## Record sanitization (`sanitize_data`, sync.py lines 104-157) -/

/-- SQLAlchemy column types that occur in this repository's models and are
inspected by `sanitize_data` via `isinstance`. -/
inductive ColType where
  | cInteger
  | cBigInteger
  | cFloat
  | cNumeric
  | cDate
  | cBoolean
  | cString
  | cText
  deriving DecidableEq, Repr

/-- `isinstance(col_type, (String, Text))` — the string-typed columns.
(The `python_type` fallback in the source adds no further string types for
the column types above.) -/
def isStringType : ColType → Bool
  | ColType.cString => true
  | ColType.cText => true
  | _ => false

/-- A Python value as it occurs in a record field being sanitized.  Floats
are modelled by exact rationals (the decimal literals the API sends). -/
inductive PyVal where
  | vStr (s : String)
  | vInt (n : Int)
  | vFloat (q : Rat)
  | vBool (b : Bool)
  | vNone
  deriving DecidableEq, Repr

/-- Value of a digit string (most significant first); 0 for `[]`. -/
def digitsVal (l : List Char) : Nat :=
  l.foldl (fun acc c => 10 * acc + (c.toNat - 48)) 0

/-- Parse a non-empty all-digit string. -/
def decDigits (l : List Char) : Option Nat :=
  if l ≠ [] ∧ l.all Char.isDigit then some (digitsVal l) else none

/-- Python's `str.lower()` on the ASCII strings the Boolean coercion
compares against. -/
def pyLower (s : String) : String := ⟨s.data.map Char.toLower⟩

/-- Models Python's `int(v)` on the string forms the sync API sends: an
optional sign followed by decimal digits.  Other accepted Python forms
(surrounding whitespace, `_` digit separators) are not modelled; on those the
model reports failure, which only narrows the set of strings treated as
coercible. -/
def pyIntParse (s : String) : Option Int :=
  match s.data with
  | '-' :: rest => (decDigits rest).map (fun n => -(n : Int))
  | '+' :: rest => (decDigits rest).map (fun n => (n : Int))
  | l => (decDigits l).map (fun n => (n : Int))

/-- Parse `digits[.digits]` (at least one digit somewhere) as a rational. -/
def pyFloatBody (l : List Char) : Option Rat :=
  match l.splitOn '.' with
  | [ip] => (decDigits ip).map (fun n => (n : Rat))
  | [ip, fp] =>
    if ip.all Char.isDigit ∧ fp.all Char.isDigit ∧ ¬(ip = [] ∧ fp = []) then
      some ((digitsVal ip : Rat) + (digitsVal fp : Rat) / (10 : Rat) ^ fp.length)
    else none
  | _ => none

/-- Models Python's `float(v)` on plain decimal literals with an optional
sign.  Exponent, `inf`/`nan` and whitespace forms are not modelled (the model
reports failure there). -/
def pyFloatParse (s : String) : Option Rat :=
  match s.data with
  | '-' :: rest => (pyFloatBody rest).map (fun q => -q)
  | '+' :: rest => pyFloatBody rest
  | l => pyFloatBody l

/-- Per-field sanitization of `sanitize_data` (sync.py lines 117-152):
- `v == ""` with a non-string column → `None`;
- a string value on a non-string column is coerced: `int(v)` for
  Integer/BigInteger, `float(v)` for Float, and the recognized
  `true/1/yes` / `false/0/no` words (case-insensitive) for Boolean with any
  other word becoming `None`; a `ValueError` from `int`/`float` is swallowed
  and the string kept;
- everything else is passed through unchanged. -/
def sanitizeValue (ct : ColType) (v : PyVal) : PyVal :=
  if v = PyVal.vStr "" then
    if isStringType ct then v else PyVal.vNone
  else
    match v with
    | PyVal.vStr s =>
      if isStringType ct then PyVal.vStr s
      else
        match ct with
        | ColType.cInteger | ColType.cBigInteger =>
          match pyIntParse s with
          | some n => PyVal.vInt n
          | none => PyVal.vStr s
        | ColType.cFloat =>
          match pyFloatParse s with
          | some q => PyVal.vFloat q
          | none => PyVal.vStr s
        | ColType.cBoolean =>
          if pyLower s = "true" ∨ pyLower s = "1" ∨ pyLower s = "yes" then
            PyVal.vBool true
          else if pyLower s = "false" ∨ pyLower s = "0" ∨ pyLower s = "no" then
            PyVal.vBool false
          else PyVal.vNone
        | _ => PyVal.vStr s
    | _ => v

/-- One record through `sanitize_data`: fields whose key is not a table
column are dropped, the rest are sanitized per column type. -/
def sanitizeRecord (cols : String → Option ColType) (rec : List (String × PyVal)) :
    List (String × PyVal) :=
  rec.filterMap (fun kv =>
    match cols kv.1 with
    | some ct => some (kv.1, sanitizeValue ct kv.2)
    | none => none)

/-! ## Advisory lock id (`sync_table_paginated`, sync.py line 454)

`lock_id = hash(table.name) % 2147483647` uses Python's built-in `hash` on a
`str`.  CPython salts string hashing with a per-process random key
(`PYTHONHASHSEED`); the definitions below model CPython's string hash
(pysiphash, SipHash-1-3 as of CPython 3.11; earlier versions use SipHash-2-4,
equally keyed per process), made explicit in the two 64-bit key words
`k0`, `k1` drawn from the process's hash secret. -/

/-- `2 ^ 64`. -/
def M64 : Nat := 18446744073709551616

/-- 64-bit modular addition. -/
def add64 (a b : Nat) : Nat := (a + b) % M64

/-- 64-bit left rotation (operands below `2 ^ 64`). -/
def rotl64 (a r : Nat) : Nat := ((a <<< r) % M64) ||| (a >>> (64 - r))

/-- The four 64-bit words of the SipHash internal state. -/
structure SipState where
  v0 : Nat
  v1 : Nat
  v2 : Nat
  v3 : Nat
  deriving Repr

/-- One SipHash round (`SINGLE_ROUND` of CPython's `pyhash.c`). -/
def sipRound (s : SipState) : SipState :=
  let v0 := add64 s.v0 s.v1
  let v1 := rotl64 s.v1 13
  let v1 := v1 ^^^ v0
  let v0 := rotl64 v0 32
  let v2 := add64 s.v2 s.v3
  let v3 := rotl64 s.v3 16
  let v3 := v3 ^^^ v2
  let v0 := add64 v0 v3
  let v3 := rotl64 v3 21
  let v3 := v3 ^^^ v0
  let v2 := add64 v2 v1
  let v1 := rotl64 v1 17
  let v1 := v1 ^^^ v2
  let v2 := rotl64 v2 32
  ⟨v0, v1, v2, v3⟩

/-- Little-endian 64-bit load of up to eight bytes. -/
def load64le (bs : List Nat) : Nat :=
  bs.foldr (fun b acc => b + 256 * acc) 0

/-- Absorb the full 8-byte blocks of the input, returning the state and the
remaining tail bytes. -/
def sipBlocks (s : SipState) : List Nat → SipState × List Nat
  | b0 :: b1 :: b2 :: b3 :: b4 :: b5 :: b6 :: b7 :: rest =>
    let m := load64le [b0, b1, b2, b3, b4, b5, b6, b7]
    let s1 := sipRound { s with v3 := s.v3 ^^^ m }
    let s2 := { s1 with v0 := s1.v0 ^^^ m }
    sipBlocks s2 rest
  | rest => (s, rest)

/-- SipHash-1-3 over a byte string with the 128-bit key `(k0, k1)`, exactly
as in CPython's `pyhash.c` (`siphash13`). -/
def siphash13 (k0 k1 : Nat) (data : List Nat) : Nat :=
  let k0 := k0 % M64
  let k1 := k1 % M64
  let s0 : SipState :=
    ⟨0x736f6d6570736575 ^^^ k0, 0x646f72616e646f6d ^^^ k1,
     0x6c7967656e657261 ^^^ k0, 0x7465646279746573 ^^^ k1⟩
  let (s, tail) := sipBlocks s0 data
  let b := ((data.length <<< 56) % M64) ||| load64le tail
  let s1 := sipRound { s with v3 := s.v3 ^^^ b }
  let s2 := { s1 with v0 := s1.v0 ^^^ b }
  let s3 := { s2 with v2 := s2.v2 ^^^ 0xff }
  let s4 := sipRound (sipRound (sipRound s3))
  (s4.v0 ^^^ s4.v1) ^^^ (s4.v2 ^^^ s4.v3)

/-- The UTF-8 bytes of an ASCII string (all synced table names are ASCII,
so the bytes coincide with the code points). -/
def strBytes (s : String) : List Nat := s.data.map Char.toNat

/-- CPython's salted `hash()` of a `str`: 0 for the empty string, otherwise
the keyed SipHash reinterpreted as a signed 64-bit value, with `-1` mapped
to `-2`.  The key `(k0, k1)` is the process's random hash secret. -/
def pyStrHash (k0 k1 : Nat) (s : String) : Int :=
  if s.data.isEmpty then 0
  else
    let u := siphash13 k0 k1 (strBytes s)
    let h : Int := if u < 9223372036854775808 then (u : Int) else (u : Int) - (M64 : Int)
    if h = -1 then -2 else h

/-- `lock_id = hash(table.name) % 2147483647` (sync.py line 454), as computed
by a process whose hash secret is `(k0, k1)`.  Python's `%` with a positive
modulus returns a non-negative result, as does Lean's `Int` `%`. -/
def lockId (k0 k1 : Nat) (tableName : String) : Int :=
  pyStrHash k0 k1 tableName % 2147483647

/-! ## Manual upsert classification (`manual_upsert`, sync.py lines 187-334)

A raw record is a Python dict, modelled as an association list from field
name to `Option α` (`none` is Python `None`); `α` is the value type of the
key columns.  The storage is abstracted to the list of primary-key tuples it
currently holds (`dbKeys`), which is what the chunked `SELECT` queries
consult. -/

section ManualUpsert

variable {α : Type} [DecidableEq α]

/-- `item.get(k)`: `None` both when the field is absent and when it is
stored as `None`. -/
def dictGet (item : List (String × Option α)) (k : String) : Option α :=
  (item.lookup k).bind id

/-- `make_key` (sync.py lines 202-208): the tuple of primary-key fields, or
`none` (the raised `ValueError`) when any of them is `None`. -/
def makeKey (pkCols : List String) (item : List (String × Option α)) :
    Option (List α) :=
  match pkCols with
  | [] => some []
  | k :: ks =>
    match dictGet item k, makeKey ks item with
    | some v, some vs => some (v :: vs)
    | _, _ => none

/-- `incoming_keys`: the keys of records that survive `make_key`
(sync.py lines 210-218). -/
def incomingKeys (pkCols : List String) (data : List (List (String × Option α))) :
    List (List α) :=
  data.filterMap (makeKey pkCols)

/-- `invalid_records`: how many records raised in `make_key` and were
skipped (sync.py lines 211-218). -/
def invalidRecords (pkCols : List String) (data : List (List (String × Option α))) :
    Nat :=
  (data.filter (fun item => (makeKey pkCols item).isNone)).length

/-- Split a list into chunks of `cs` (`incoming_keys[i:i + chunk_size]`,
sync.py lines 230-231); `cs = 0` degenerates to singleton chunks. -/
def chunksOf (cs : Nat) : List β → List (List β)
  | [] => []
  | x :: xs => (x :: List.take (cs - 1) xs) :: chunksOf cs (List.drop (cs - 1) xs)
  termination_by l => l.length
  decreasing_by
    simp only [List.length_drop, List.length_cons]
    omega

/-- `existing_keys` accumulated over the chunked queries (sync.py lines
226-245): each chunk contributes the stored keys it mentions (`chunk_size`
is 500 in the source). -/
def existingKeysQuery (dbKeys : List (List α)) (keys : List (List α)) :
    List (List α) :=
  (chunksOf 500 keys).foldl
    (fun acc chunk => acc ++ dbKeys.filter (fun k => decide (k ∈ chunk))) []

/-- The second pass over `data` (sync.py lines 250-260): records whose key
exists go to `to_update`, new keys to `to_insert`, records that raise in
`make_key` are skipped.  Returns `(to_insert, to_update)` in data order. -/
def classifyLoop (pkCols : List String) (existKs : List (List α)) :
    List (List (String × Option α)) →
      List (List (String × Option α)) × List (List (String × Option α))
  | [] => ([], [])
  | item :: rest =>
    let r := classifyLoop pkCols existKs rest
    match makeKey pkCols item with
    | some key => if key ∈ existKs then (r.1, item :: r.2) else (item :: r.1, r.2)
    | none => r

/-- `manual_upsert`'s insert/update split: only records in `to_insert` are
inserted and only records in `to_update` are updated (the subsequent
per-record savepoint loops iterate exactly over these two lists). -/
def classifyRecords (pkCols : List String) (dbKeys : List (List α))
    (data : List (List (String × Option α))) :
    List (List (String × Option α)) × List (List (String × Option α)) :=
  classifyLoop pkCols (existingKeysQuery dbKeys (incomingKeys pkCols data)) data

end ManualUpsert

/-! ## DumpAll replace (`sync_table_paginated` Pattern A, sync.py lines 438-477)

The destination table is its list of rows.  The remote response is
`response.get("records", [])`.  Failure injection: `deleteOk = false` makes
the `TRUNCATE` (`table.delete()`) raise; `insOk i = false` makes the `i`-th
record's `INSERT` fail inside its per-record savepoint (`insert_only`,
sync.py lines 159-185), which is caught and counted; `fatalAt = some i`
raises an error that escapes `upsert_data` (e.g. a structural failure)
after `i` records have been processed.  An escaping error rolls the outer
savepoint back to the pre-run rows (`truncate_savepoint.rollback()` /
`db.rollback()`) and re-raises. -/

section DumpAll

variable {α : Type} [DecidableEq α]

/-- The per-record insert loop of `insert_only` under the truncate
savepoint, with an optional escaping fault before record `fatalAt`. -/
def insertLoop (insOk : Nat → Bool) (fatalAt : Option Nat) :
    List α → List α → Nat → Except String (List α × Nat)
  | rows, [], i =>
    if fatalAt = some i then Except.error "structural failure"
    else Except.ok (rows, 0)
  | rows, r :: rest, i =>
    if fatalAt = some i then Except.error "structural failure"
    else if insOk i then
      match insertLoop insOk fatalAt (rows ++ [r]) rest (i + 1) with
      | Except.ok (rs, n) => Except.ok (rs, n + 1)
      | Except.error e => Except.error e
    else insertLoop insOk fatalAt rows rest (i + 1)

/-- The truncate-plus-insert unit under `truncate_savepoint`
(sync.py lines 459-474): delete all rows, insert the records; an escaping
error restores the pre-run rows and re-raises. -/
def dumpAllReplace (initRows : List α) (records : List α) (deleteOk : Bool)
    (insOk : Nat → Bool) (fatalAt : Option Nat) : List α × Except String Nat :=
  if ¬ deleteOk then (initRows, Except.error "TRUNCATE failed")
  else
    match insertLoop insOk fatalAt [] records 0 with
    | Except.ok (rows, n) => (rows, Except.ok n)
    | Except.error e => (initRows, Except.error e)

/-- Observable outcome of a Pattern-A table sync. -/
structure DumpAllTrace (α : Type) where
  finalRows : List α
  lockTaken : Bool
  deleteIssued : Bool
  result : Except String Nat

/-- Pattern A of `sync_table_paginated` (sync.py lines 438-477):
`records = response.get("records", [])`; an empty record set returns 0
before the advisory lock is acquired and before any delete or insert;
otherwise the lock is taken and the truncate-plus-insert unit runs (the
lock is released in `finally` either way). -/
def syncDirectTable (initRows : List α) (apiRecords : Option (List α))
    (deleteOk : Bool) (insOk : Nat → Bool) (fatalAt : Option Nat) :
    DumpAllTrace α :=
  let records := apiRecords.getD []
  if records.isEmpty then
    ⟨initRows, false, false, Except.ok 0⟩
  else
    let r := dumpAllReplace initRows records deleteOk insOk fatalAt
    ⟨r.1, true, true, r.2⟩

end DumpAll

/-! ## Sync cursor bookkeeping (`sync_data`, sync.py lines 559-642)

`SyncMetadata` rows (`database/models.py`), with timestamps as abstract
ticks.  The endpoint's cursor handling is modelled relative to the outcome
of `sync_table_paginated`. -/

/-- One `sync_metadata` row (the columns `sync_data` touches). -/
structure SyncMetadataRow where
  tableName : String
  lastSyncTimestamp : Option Nat
  lastSyncFromDate : Option String
  totalRecords : Option Nat
  lastSyncStatus : Option String
  deriving DecidableEq, Repr

/-- `db.query(SyncMetadata).filter(SyncMetadata.table_name == target).first()`. -/
def findMeta (store : List SyncMetadataRow) (name : String) :
    Option SyncMetadataRow :=
  store.find? (fun r => r.tableName == name)

/-- Mutate the first row with the given table name (the one `.first()`
returned), leaving the rest of the store unchanged. -/
def updateFirstMeta (store : List SyncMetadataRow) (name : String)
    (f : SyncMetadataRow → SyncMetadataRow) : List SyncMetadataRow :=
  match store with
  | [] => []
  | r :: rest =>
    if r.tableName == name then f r :: rest
    else r :: updateFirstMeta rest name f

/-- The cursor updates of `sync_data` (sync.py lines 603-642) around a sync
whose outcome is `outcome`:
- success (lines 606-619): load-or-create the row, set timestamp, count and
  `"SUCCESS"`, and for paginated tables the new from-date, then commit;
- failure (lines 630-642): *if* a row already exists, set `"FAILED"` and the
  timestamp and commit; no row is created; the error is re-raised as an
  HTTP 500. -/
def syncDataCursor (store : List SyncMetadataRow) (targetTable : String)
    (isPaginated : Bool) (endDate : String) (now : Nat)
    (outcome : Except String Nat) : List SyncMetadataRow × Except String Nat :=
  match outcome with
  | Except.ok n =>
    let store1 :=
      match findMeta store targetTable with
      | some _ =>
        updateFirstMeta store targetTable (fun r =>
          { r with
            lastSyncTimestamp := some now
            totalRecords := some n
            lastSyncStatus := some "SUCCESS"
            lastSyncFromDate :=
              if isPaginated then some endDate else r.lastSyncFromDate })
      | none =>
        store ++ [{ tableName := targetTable
                    lastSyncTimestamp := some now
                    lastSyncFromDate := if isPaginated then some endDate else none
                    totalRecords := some n
                    lastSyncStatus := some "SUCCESS" }]
    (store1, Except.ok n)
  | Except.error e =>
    let store1 :=
      match findMeta store targetTable with
      | some _ =>
        updateFirstMeta store targetTable (fun r =>
          { r with
            lastSyncStatus := some "FAILED"
            lastSyncTimestamp := some now })
      | none => store
    (store1, Except.error e)

/-! ## Orchestration (`sync_all_tables`, sync_scheduler.py lines 54-179) -/

/-- The fixed dependency order of `TABLES_TO_SYNC`
(sync_scheduler.py lines 41-47). -/
def TABLES_TO_SYNC : List String :=
  ["bsk_master", "district", "service_master", "provision", "citizen_master"]

/-- One entry of the `results` list built by `sync_all_tables`. -/
structure TableRunResult where
  table : String
  success : Bool
  records : Nat
  deriving DecidableEq, Repr

/-- The per-table loop of `sync_all_tables` (sync_scheduler.py lines
78-131): each table's sync is attempted inside `try`; an exception appends
a failed entry and `continue`s with the next table. -/
def syncAllLoop (attempt : String → Except String Nat) :
    List String → List TableRunResult
  | [] => []
  | t :: rest =>
    (match attempt t with
     | Except.ok n => ⟨t, true, n⟩
     | Except.error _ => ⟨t, false, 0⟩) :: syncAllLoop attempt rest

/-- `sync_all_tables` after the in-process guard: run every table in
`TABLES_TO_SYNC`, then schedule the one-time static regeneration job iff
`success_count > 0` (sync_scheduler.py lines 138, 154-173).  Returns the
results list and whether regeneration was scheduled. -/
def syncAllTables (attempt : String → Except String Nat) :
    List TableRunResult × Bool :=
  let results := syncAllLoop attempt TABLES_TO_SYNC
  let successCount := (results.filter (fun r => r.success)).length
  (results, decide (0 < successCount))

/-! ## Helper lemmas -/

theorem makeKey_eq_none_iff {α : Type} [DecidableEq α] (pkCols : List String)
    (item : List (String × Option α)) :
    makeKey pkCols item = none ↔ ∃ k ∈ pkCols, dictGet item k = none := by
  induction pkCols with
  | nil => simp [makeKey]
  | cons k ks ih =>
    simp only [makeKey]
    cases h : dictGet item k with
    | none => simp [h]
    | some v =>
      cases h2 : makeKey ks item with
      | none =>
        simp only [List.mem_cons]
        constructor
        · intro _
          rcases ih.mp h2 with ⟨k', hk', hd⟩
          exact ⟨k', Or.inr hk', hd⟩
        · intro _
          trivial
      | some vs =>
        simp only [List.mem_cons, reduceCtorEq, false_iff, not_exists]
        rintro k' ⟨rfl | hk', hd⟩
        · rw [h] at hd
          exact Option.noConfusion hd
        · have := ih.mpr ⟨k', hk', hd⟩
          rw [h2] at this
          exact Option.noConfusion this

theorem classifyLoop_not_mem_of_none {α : Type} [DecidableEq α]
    (pkCols : List String) (existKs : List (List α))
    (data : List (List (String × Option α))) (item : List (String × Option α))
    (h : makeKey pkCols item = none) :
    item ∉ (classifyLoop pkCols existKs data).1 ∧
    item ∉ (classifyLoop pkCols existKs data).2 := by
  induction data with
  | nil => simp [classifyLoop]
  | cons hd rest ih =>
    simp only [classifyLoop]
    cases h2 : makeKey pkCols hd with
    | none => exact ih
    | some key =>
      have hne : item ≠ hd := by
        rintro rfl
        rw [h] at h2
        exact Option.noConfusion h2
      by_cases hk : key ∈ existKs
      · simp only [if_pos hk]
        exact ⟨ih.1, by simp [List.mem_cons, hne, ih.2]⟩
      · simp only [if_neg hk]
        exact ⟨by simp [List.mem_cons, hne, ih.1], ih.2⟩

theorem classifyLoop_mem_of_some {α : Type} [DecidableEq α]
    (pkCols : List String) (existKs : List (List α))
    (data : List (List (String × Option α))) (item : List (String × Option α))
    (hmem : item ∈ data) (h : makeKey pkCols item ≠ none) :
    item ∈ (classifyLoop pkCols existKs data).1 ∨
    item ∈ (classifyLoop pkCols existKs data).2 := by
  induction data with
  | nil => simp at hmem
  | cons hd rest ih =>
    simp only [classifyLoop]
    rcases List.mem_cons.mp hmem with rfl | hmem'
    · cases h2 : makeKey pkCols item with
      | none => exact absurd h2 h
      | some key =>
        by_cases hk : key ∈ existKs
        · simp [if_pos hk]
        · simp [if_neg hk]
    · cases h2 : makeKey pkCols hd with
      | none => exact ih hmem'
      | some key =>
        rcases ih hmem' with h3 | h3
        · by_cases hk : key ∈ existKs
          · simp only [if_pos hk]
            exact Or.inl h3
          · simp only [if_neg hk]
            exact Or.inl (List.mem_cons_of_mem _ h3)
        · by_cases hk : key ∈ existKs
          · simp only [if_pos hk]
            exact Or.inr (List.mem_cons_of_mem _ h3)
          · simp only [if_neg hk]
            exact Or.inr h3

theorem invalidRecords_eq_count_null {α : Type} [DecidableEq α]
    (pkCols : List String) (data : List (List (String × Option α))) :
    invalidRecords pkCols data =
      (data.filter
        (fun item => decide (∃ k ∈ pkCols, dictGet item k = none))).length := by
  unfold invalidRecords
  congr 1
  apply List.filter_congr
  intro item _
  by_cases h : makeKey pkCols item = none
  · simp [h, (makeKey_eq_none_iff pkCols item).mp h]
  · have hnot : ¬ ∃ k ∈ pkCols, dictGet item k = none :=
      fun hex => h ((makeKey_eq_none_iff pkCols item).mpr hex)
    simp [Option.isNone_iff_eq_none, h, hnot]
    exact Option.isSome_iff_ne_none.mpr h

theorem pageLoop_length_le {α : Type} (resp : Nat → List α)
    (upsert : List α → Nat) (pageSize : Nat) :
    ∀ rem page consecEmpty,
      (pageLoop resp upsert pageSize rem page consecEmpty).1.length ≤ rem := by
  intro rem
  induction rem with
  | zero => intro page ce; simp [pageLoop]
  | succ r ih =>
    intro page ce
    simp only [pageLoop]
    by_cases he : (resp page).isEmpty
    · simp only [he, if_true]
      by_cases h3 : 3 ≤ ce + 1
      · simp [h3]
      · simp only [h3, if_false, List.length_cons]
        exact Nat.succ_le_succ (ih (page + 1) (ce + 1))
    · simp only [he, if_false]
      by_cases hlt : (resp page).length < pageSize
      · simp [hlt]
      · simp only [hlt, if_false, List.length_cons]
        exact Nat.succ_le_succ (ih (page + 1) 0)

theorem pageLoop_length_pos {α : Type} (resp : Nat → List α)
    (upsert : List α → Nat) (pageSize rem page consecEmpty : Nat) :
    1 ≤ (pageLoop resp upsert pageSize (rem + 1) page consecEmpty).1.length := by
  simp only [pageLoop]
  by_cases he : (resp page).isEmpty
  · by_cases h3 : 3 ≤ consecEmpty + 1 <;> simp [he, h3]
  · by_cases hlt : (resp page).length < pageSize <;> simp [he, hlt]

/-! ## Claims -/

/-- C4: every record submitted to `manual_upsert` with a `None` (or absent)
primary-key field is excluded from both `to_insert` and `to_update`, is
counted among the skipped `invalid_records`, and every other record is
classified as an insert or an update.  (The insert and update savepoint
loops iterate exactly over `to_insert` and `to_update`, so an excluded
record never reaches storage.) -/
theorem c4_null_pk_excluded {α : Type} [DecidableEq α]
    (pkCols : List String) (dbKeys : List (List α))
    (data : List (List (String × Option α))) :
    (∀ item ∈ data, (∃ k ∈ pkCols, dictGet item k = none) →
      item ∉ (classifyRecords pkCols dbKeys data).1 ∧
      item ∉ (classifyRecords pkCols dbKeys data).2)
    ∧ invalidRecords pkCols data =
        (data.filter
          (fun item => decide (∃ k ∈ pkCols, dictGet item k = none))).length
    ∧ (∀ item ∈ data, (∀ k ∈ pkCols, dictGet item k ≠ none) →
        item ∈ (classifyRecords pkCols dbKeys data).1 ∨
        item ∈ (classifyRecords pkCols dbKeys data).2) := by
  refine ⟨?_, invalidRecords_eq_count_null pkCols data, ?_⟩
  · intro item _ hnull
    exact classifyLoop_not_mem_of_none pkCols _ data item
      ((makeKey_eq_none_iff pkCols item).mpr hnull)
  · intro item hmem hall
    apply classifyLoop_mem_of_some pkCols _ data item hmem
    intro hnone
    rcases (makeKey_eq_none_iff pkCols item).mp hnone with ⟨k, hk, hd⟩
    exact hall k hk hd

/-- Witness for C4 at a concrete batch: the record whose single primary-key
field `"id"` is `None` lands in neither list, and the record with
`"id" = 1` is classified. -/
theorem c4_null_pk_excluded_witness :
    ([("id", (none : Option Nat))] ∉
        (classifyRecords ["id"] [] [[("id", none)], [("id", some 1)]]).1 ∧
      [("id", (none : Option Nat))] ∉
        (classifyRecords ["id"] [] [[("id", none)], [("id", some 1)]]).2)
    ∧ ([("id", (some 1 : Option Nat))] ∈
        (classifyRecords ["id"] [] [[("id", none)], [("id", some 1)]]).1 ∨
      [("id", (some 1 : Option Nat))] ∈
        (classifyRecords ["id"] [] [[("id", none)], [("id", some 1)]]).2) :=
  ⟨(c4_null_pk_excluded ["id"] [] [[("id", none)], [("id", some 1)]]).1
      [("id", none)] (by decide) ⟨"id", by decide, by decide⟩,
    (c4_null_pk_excluded ["id"] [] [[("id", none)], [("id", some 1)]]).2.2
      [("id", some 1)] (by decide) (by decide)⟩

/-- C5: the fetch loop halts immediately after exactly three consecutive
empty pages — after the third consecutive empty page no further page is
requested even when iterations remain in `range(1, max_pages + 2)` (an
arbitrarily larger announced total) — and a non-empty full page resets the
`consecutive_empty` counter to 0. -/
theorem c5_three_empty_halt {α : Type} (resp : Nat → List α)
    (upsert : List α → Nat) (pageSize rem page : Nat) :
    (resp page = [] → resp (page + 1) = [] → resp (page + 2) = [] →
      pageLoop resp upsert pageSize (rem + 3) page 0 =
        ([page, page + 1, page + 2], 0))
    ∧ (∀ consecEmpty, resp page ≠ [] → pageSize ≤ (resp page).length →
        pageLoop resp upsert pageSize (rem + 1) page consecEmpty =
          (page :: (pageLoop resp upsert pageSize rem (page + 1) 0).1,
           upsert (resp page) +
             (pageLoop resp upsert pageSize rem (page + 1) 0).2)) := by
  have step : ∀ m pg ce, resp pg = [] → ¬ 3 ≤ ce + 1 →
      pageLoop resp upsert pageSize (m + 1) pg ce =
        (pg :: (pageLoop resp upsert pageSize m (pg + 1) (ce + 1)).1,
         (pageLoop resp upsert pageSize m (pg + 1) (ce + 1)).2) := by
    intro m pg ce hpg hce
    simp [pageLoop, hpg, hce]
  have stop : ∀ m pg ce, resp pg = [] → 3 ≤ ce + 1 →
      pageLoop resp upsert pageSize (m + 1) pg ce = ([pg], 0) := by
    intro m pg ce hpg hce
    simp [pageLoop, hpg, hce]
  constructor
  · intro h1 h2 h3
    rw [show rem + 3 = (rem + 2) + 1 from rfl,
      step (rem + 2) page 0 h1 (by norm_num),
      show rem + 2 = (rem + 1) + 1 from rfl,
      step (rem + 1) (page + 1) 1 h2 (by norm_num),
      show page + 1 + 1 = page + 2 from rfl,
      show rem + 1 = rem + 1 from rfl,
      stop rem (page + 2) 2 h3 (by norm_num)]
  · intro ce hne hlen
    have he : (resp page).isEmpty = false := by
      simpa [List.isEmpty_iff] using hne
    have hnlt : ¬ (resp page).length < pageSize := Nat.not_lt.mpr hlen
    simp [pageLoop, he, hnlt]

/-- Witness for C5: with every page empty the loop requests pages 1-3 only;
with a full single-record page at size 1 the counter resets and the page is
merged. -/
theorem c5_three_empty_halt_witness :
    pageLoop (fun _ => ([] : List Nat)) List.length 1000 3 1 0 = ([1, 2, 3], 0)
    ∧ pageLoop (fun _ => [5]) List.length 1 1 1 2 =
        (1 :: (pageLoop (fun _ => [5]) List.length 1 0 2 0).1,
         1 + (pageLoop (fun _ => [5]) List.length 1 0 2 0).2) :=
  ⟨(c5_three_empty_halt (fun _ => ([] : List Nat)) List.length 1000 0 1).1
      rfl rfl rfl,
    (c5_three_empty_halt (fun _ => [5]) List.length 1 0 1).2 2
      (by decide) (by decide)⟩

/-- C6 as stated is false: with `total_no_of_records = 2500` and
`page_size = 1000` a first page holding a single record (fewer than
`page_size`) triggers the natural-end break, so the loop issues only one
page call, not at least three. -/
theorem c6_counterexample :
    ¬ 3 ≤ (callsOf (syncPaginatedTable (some "meta") (some (JVal.jint 2500))
        (fun _ => [0]) List.length 1000)).length := by
  decide

/-- C6 (amended): with `total_no_of_records = 2500` and `page_size = 1000`,
`page_count = ceil(2500 / 1000) = 3` and the fetch loop issues at least 1
and at most `page_count + 1 = 4` page calls, for every sequence of page
responses. -/
theorem c6_page_call_bounds {α : Type} (resp : Nat → List α)
    (upsert : List α → Nat) :
    ceilDivNat 2500 1000 = 3
    ∧ 1 ≤ (callsOf (syncPaginatedTable (some "meta") (some (JVal.jint 2500))
        resp upsert 1000)).length
    ∧ (callsOf (syncPaginatedTable (some "meta") (some (JVal.jint 2500))
        resp upsert 1000)).length ≤ ceilDivNat 2500 1000 + 1 := by
  have hrun : syncPaginatedTable (some "meta") (some (JVal.jint 2500))
      resp upsert 1000 =
      Except.ok (pageLoop resp upsert 1000 4 1 0) := by
    simp [syncPaginatedTable, extractTotal, ceilDivNat]
  refine ⟨rfl, ?_, ?_⟩
  · rw [hrun]
    exact pageLoop_length_pos resp upsert 1000 3 1 0
  · rw [hrun]
    exact pageLoop_length_le resp upsert 1000 4 1 0

/-- C8: a meta response carrying `flow = "meta"` whose
`total_no_of_records` is missing, a non-integer (a string or `null`), or a
negative integer defaults the total to 0: the run returns 0 records and no
page calls, and never raises. -/
theorem c8_invalid_total_never_raises {α : Type} (resp : Nat → List α)
    (upsert : List α → Nat) (pageSize : Nat) :
    syncPaginatedTable (some "meta") none resp upsert pageSize =
      Except.ok ([], 0)
    ∧ (∀ s, syncPaginatedTable (some "meta") (some (JVal.jstr s)) resp upsert
        pageSize = Except.ok ([], 0))
    ∧ syncPaginatedTable (some "meta") (some JVal.jnull) resp upsert
        pageSize = Except.ok ([], 0)
    ∧ (∀ n : Int, n < 0 →
        syncPaginatedTable (some "meta") (some (JVal.jint n)) resp upsert
          pageSize = Except.ok ([], 0)) := by
  refine ⟨?_, ?_, ?_, ?_⟩
  · simp [syncPaginatedTable, extractTotal]
  · intro s
    simp [syncPaginatedTable, extractTotal]
  · simp [syncPaginatedTable, extractTotal]
  · intro n hn
    simp [syncPaginatedTable, extractTotal, hn]

/-- Witness for C8 at a concrete negative announced total. -/
theorem c8_invalid_total_witness :
    syncPaginatedTable (some "meta") (some (JVal.jint (-5)))
      (fun _ => ([] : List Nat)) List.length 1000 = Except.ok ([], 0) :=
  (c8_invalid_total_never_raises (fun _ => ([] : List Nat))
    List.length 1000).2.2.2 (-5) (by norm_num)

theorem findMeta_append_of_none (store : List SyncMetadataRow) (name : String)
    (x : SyncMetadataRow) (h : findMeta store name = none) :
    findMeta (store ++ [x]) name =
      if x.tableName == name then some x else none := by
  induction store with
  | nil =>
    simp only [findMeta, List.nil_append, List.find?]
    by_cases hx : (x.tableName == name) = true <;> simp [hx]
  | cons r rest ih =>
    unfold findMeta at h ⊢
    rw [List.cons_append]
    by_cases hr : (r.tableName == name) = true
    · simp [List.find?, hr] at h
    · simp only [List.find?, hr] at h ⊢
      exact ih h

theorem findMeta_updateFirstMeta (store : List SyncMetadataRow) (name : String)
    (f : SyncMetadataRow → SyncMetadataRow)
    (hf : ∀ r, (f r).tableName = r.tableName) :
    findMeta (updateFirstMeta store name f) name =
      (findMeta store name).map f := by
  induction store with
  | nil => simp [updateFirstMeta, findMeta]
  | cons r rest ih =>
    unfold updateFirstMeta findMeta
    by_cases hr : (r.tableName == name) = true
    · have hfr : ((f r).tableName == name) = true := by rw [hf r]; exact hr
      simp [hr, hfr, List.find?]
    · simp only [hr, if_false, List.find?]
      simpa [findMeta] using ih

theorem syncAllLoop_table_map (attempt : String → Except String Nat) :
    ∀ l : List String, (syncAllLoop attempt l).map (fun r => r.table) = l := by
  intro l
  induction l with
  | nil => rfl
  | cons t rest ih =>
    cases h : attempt t <;> simp [syncAllLoop, h, ih]

theorem syncAllLoop_mem (attempt : String → Except String Nat) :
    ∀ (l : List String) (t : String), t ∈ l →
      ∃ r ∈ syncAllLoop attempt l, r.table = t ∧
        (r.success = true ↔ ∃ n, attempt t = Except.ok n) := by
  intro l
  induction l with
  | nil => intro t ht; simp at ht
  | cons hd rest ih =>
    intro t ht
    rcases List.mem_cons.mp ht with rfl | ht'
    · cases h : attempt t with
      | ok n =>
        refine ⟨⟨t, true, n⟩, ?_, rfl, ?_⟩
        · simp [syncAllLoop, h]
        · simp [h]
      | error e =>
        refine ⟨⟨t, false, 0⟩, ?_, rfl, ?_⟩
        · simp [syncAllLoop, h]
        · simp [h]
    · rcases ih t ht' with ⟨r, hr, hrt, hiff⟩
      exact ⟨r, by
        cases h : attempt hd <;>
          simp [syncAllLoop, h, List.mem_cons, Or.inr hr], hrt, hiff⟩

theorem syncAllLoop_success_iff (attempt : String → Except String Nat) :
    ∀ l : List String,
      0 < ((syncAllLoop attempt l).filter (fun r => r.success)).length ↔
        ∃ t ∈ l, ∃ n, attempt t = Except.ok n := by
  intro l
  induction l with
  | nil => simp [syncAllLoop]
  | cons hd rest ih =>
    cases h : attempt hd with
    | ok n =>
      simp only [syncAllLoop, h, List.filter]
      constructor
      · intro _
        exact ⟨hd, List.mem_cons_self hd rest, n, h⟩
      · intro _
        simp
    | error e =>
      simp only [syncAllLoop, h, List.filter]
      rw [ih]
      constructor
      · rintro ⟨t, ht, hn⟩
        exact ⟨t, List.mem_cons_of_mem _ ht, hn⟩
      · rintro ⟨t, ht, hn⟩
        rcases List.mem_cons.mp ht with rfl | ht'
        · rcases hn with ⟨n, hn⟩
          rw [h] at hn
          exact Except.noConfusion hn
        · exact ⟨t, ht', hn⟩

/-- C10: a DumpAll (Pattern A) sync whose remote response carries no
records (missing `"records"` key or an empty list) returns 0 and performs
nothing: the advisory lock is not taken, no delete is issued, and the
destination rows are untouched. -/
theorem c10_empty_response_is_noop {α : Type} [DecidableEq α]
    (initRows : List α) (apiRecords : Option (List α)) (deleteOk : Bool)
    (insOk : Nat → Bool) (fatalAt : Option Nat)
    (h : apiRecords = none ∨ apiRecords = some []) :
    syncDirectTable initRows apiRecords deleteOk insOk fatalAt =
      ⟨initRows, false, false, Except.ok 0⟩ := by
  rcases h with rfl | rfl <;> simp [syncDirectTable]

/-- Witness for C10: an absent `"records"` key on a one-row table. -/
theorem c10_empty_response_is_noop_witness :
    syncDirectTable [3] (none : Option (List Nat)) true (fun _ => true) none =
      ⟨[3], false, false, Except.ok 0⟩ :=
  c10_empty_response_is_noop [3] none true (fun _ => true) none (Or.inl rfl)

/-- C1 as stated is false: a single record failing its `INSERT` inside
`insert_only`'s per-record savepoint is an error during the
truncate-plus-insert sequence, yet the unit is not rolled back — here the
table held `[0]`, record index 0 of `[1, 2]` fails, and the run commits
`[2]`: the pre-run row is gone and only part of the new data is present (a
partially re-inserted state), with the run reporting success. -/
theorem c1_counterexample :
    (syncDirectTable [0] (some [1, 2]) true (fun i => decide (0 < i))
        none).finalRows = [2]
    ∧ (syncDirectTable [0] (some [1, 2]) true (fun i => decide (0 < i))
        none).result = Except.ok 1
    ∧ ([2] : List Nat) ≠ [0] :=
  ⟨rfl, rfl, by decide⟩

/-- C1 (amended): whenever an error escapes the replace sequence (the run
raises — a failed delete or a structural failure escaping `upsert_data`),
the outer savepoint rollback restores the destination table to exactly its
pre-run rows; per-record insert failures, however, are isolated by their
own savepoints and do not roll back the unit, so a committed replace may
omit the failed records. -/
theorem c1_rollback_on_escaping_error {α : Type} [DecidableEq α]
    (initRows : List α) (apiRecords : Option (List α)) (deleteOk : Bool)
    (insOk : Nat → Bool) (fatalAt : Option Nat) (e : String)
    (h : (syncDirectTable initRows apiRecords deleteOk insOk fatalAt).result =
      Except.error e) :
    (syncDirectTable initRows apiRecords deleteOk insOk fatalAt).finalRows =
      initRows := by
  by_cases hemp : ((apiRecords.getD []).isEmpty : Prop)
  · simp [syncDirectTable, hemp] at h
  · simp only [syncDirectTable, hemp, if_false] at h ⊢
    unfold dumpAllReplace at h ⊢
    by_cases hd : (deleteOk : Prop)
    · simp only [hd, not_true, if_false] at h ⊢
      cases hil : insertLoop insOk fatalAt ([] : List α) (apiRecords.getD []) 0 with
      | ok p => simp [hil] at h
      | error e' => simp [hil]
    · simp only [eq_false hd, not_false_iff, if_true] at h ⊢
      simp

/-- Witness for C1 (amended): the delete raising leaves the table intact. -/
theorem c1_rollback_witness :
    (syncDirectTable [5] (some [1]) false (fun _ => true) none).finalRows =
      [5] :=
  c1_rollback_on_escaping_error [5] (some [1]) false (fun _ => true) none
    "TRUNCATE failed" rfl

/-- C2 as stated is false: when the very first sync attempt for a table
fails, the failure path of `sync_data` only updates an *existing*
`SyncMetadata` row (`if metadata:`), so no cursor row is created — after
the failed first attempt there is no cursor at all, let alone a FAILED
one. -/
theorem c2_counterexample :
    findMeta (syncDataCursor [] "provision" true "2024-02-01" 7
        (Except.error "boom")).1 "provision" = none := rfl

/-- C2 (amended): after a successful attempt the cursor row exists (created
if absent) with status SUCCESS and the attempt's timestamp and count; after
a failed attempt an *existing* cursor row is updated to FAILED with the
attempt's timestamp, but if no row existed none is created and the store is
unchanged; the sync outcome itself is propagated unchanged. -/
theorem c2_cursor_updated (store : List SyncMetadataRow) (target : String)
    (isPaginated : Bool) (endDate : String) (now : Nat)
    (outcome : Except String Nat) :
    (∀ n, outcome = Except.ok n →
      ∃ r, findMeta (syncDataCursor store target isPaginated endDate now
          outcome).1 target = some r ∧
        r.lastSyncStatus = some "SUCCESS" ∧ r.lastSyncTimestamp = some now ∧
        r.totalRecords = some n)
    ∧ (∀ e, outcome = Except.error e →
        (findMeta store target = none →
          (syncDataCursor store target isPaginated endDate now outcome).1 =
            store)
        ∧ (∀ r₀, findMeta store target = some r₀ →
            ∃ r, findMeta (syncDataCursor store target isPaginated endDate now
                outcome).1 target = some r ∧
              r.lastSyncStatus = some "FAILED" ∧
              r.lastSyncTimestamp = some now))
    ∧ (syncDataCursor store target isPaginated endDate now outcome).2 =
        outcome := by
  refine ⟨?_, ?_, ?_⟩
  · rintro n rfl
    simp only [syncDataCursor]
    cases hfind : findMeta store target with
    | some r0 =>
      dsimp only
      rw [findMeta_updateFirstMeta store target
        (fun r =>
          { r with
            lastSyncTimestamp := some now
            totalRecords := some n
            lastSyncStatus := some "SUCCESS"
            lastSyncFromDate :=
              if isPaginated then some endDate else r.lastSyncFromDate })
        (fun r => rfl), hfind]
      exact ⟨_, rfl, rfl, rfl, rfl⟩
    | none =>
      rw [findMeta_append_of_none store target _ hfind]
      simp only [beq_self_eq_true, if_true]
      exact ⟨_, rfl, rfl, rfl, rfl⟩
  · rintro e rfl
    constructor
    · intro hfind
      simp [syncDataCursor, hfind]
    · intro r₀ hfind
      simp only [syncDataCursor, hfind]
      rw [findMeta_updateFirstMeta store target
        (fun r =>
          { r with
            lastSyncStatus := some "FAILED"
            lastSyncTimestamp := some now })
        (fun r => rfl), hfind]
      exact ⟨_, rfl, rfl, rfl⟩
  · cases outcome <;> rfl

/-- Witness for C2 (amended): a first successful sync creates the SUCCESS
cursor; a failed sync with no pre-existing cursor leaves the empty store
empty. -/
theorem c2_cursor_updated_witness :
    (∃ r, findMeta (syncDataCursor [] "district" false "N/A" 3
        (Except.ok 2)).1 "district" = some r ∧
      r.lastSyncStatus = some "SUCCESS" ∧ r.lastSyncTimestamp = some 3 ∧
      r.totalRecords = some 2)
    ∧ (syncDataCursor [] "provision" true "2024-02-01" 7
        (Except.error "boom")).1 = [] :=
  ⟨(c2_cursor_updated [] "district" false "N/A" 3 (Except.ok 2)).1 2 rfl,
    ((c2_cursor_updated [] "provision" true "2024-02-01" 7
      (Except.error "boom")).2.1 "boom" rfl).1 rfl⟩

/-- C3 is right about the intent and the code is wrong: the lock id is
`hash(table.name) % 2147483647`, and CPython's `hash` of a `str` is keyed
by a per-process random secret (`PYTHONHASHSEED`), so two processes
generally derive *different* lock ids for the same table and fail to
contend on the same `pg_advisory_lock`.  Concretely, for the DumpAll table
`ml_district`, the hash secrets `(0, 0)` and `(1, 0)` yield different lock
ids. -/
theorem c3_lock_id_depends_on_process_seed :
    lockId 0 0 "ml_district" ≠ lockId 1 0 "ml_district" := by decide

/-- C7 as stated is false: for a Boolean column, a string outside the
recognized `true/1/yes` / `false/0/no` words is not passed through
unchanged — `sanitize_data` replaces it by `None` (`else: v = None`,
sync.py line 147). -/
theorem c7_counterexample :
    sanitizeValue ColType.cBoolean (PyVal.vStr "xyz") = PyVal.vNone
    ∧ PyVal.vNone ≠ PyVal.vStr "xyz" :=
  ⟨rfl, by decide⟩

/-- C7 (amended): for non-text columns the empty string becomes `None` and
numeric-looking strings are coerced to the column's int/float/bool type;
a string whose `int`/`float` coercion fails is passed through unchanged,
but a Boolean-column string outside the recognized word lists is replaced
by `None` rather than passed through. -/
theorem c7_sanitize_coercion (s : String) :
    (∀ ct, isStringType ct = false →
      sanitizeValue ct (PyVal.vStr "") = PyVal.vNone)
    ∧ (∀ n, s ≠ "" → pyIntParse s = some n →
        sanitizeValue ColType.cInteger (PyVal.vStr s) = PyVal.vInt n ∧
        sanitizeValue ColType.cBigInteger (PyVal.vStr s) = PyVal.vInt n)
    ∧ (s ≠ "" → pyIntParse s = none →
        sanitizeValue ColType.cInteger (PyVal.vStr s) = PyVal.vStr s ∧
        sanitizeValue ColType.cBigInteger (PyVal.vStr s) = PyVal.vStr s)
    ∧ (∀ q, s ≠ "" → pyFloatParse s = some q →
        sanitizeValue ColType.cFloat (PyVal.vStr s) = PyVal.vFloat q)
    ∧ (s ≠ "" → pyFloatParse s = none →
        sanitizeValue ColType.cFloat (PyVal.vStr s) = PyVal.vStr s)
    ∧ (s ≠ "" → pyLower s = "true" ∨ pyLower s = "1" ∨ pyLower s = "yes" →
        sanitizeValue ColType.cBoolean (PyVal.vStr s) = PyVal.vBool true)
    ∧ (s ≠ "" →
        pyLower s ≠ "true" → pyLower s ≠ "1" → pyLower s ≠ "yes" →
        pyLower s ≠ "false" → pyLower s ≠ "0" → pyLower s ≠ "no" →
        sanitizeValue ColType.cBoolean (PyVal.vStr s) = PyVal.vNone) := by
  refine ⟨?_, ?_, ?_, ?_, ?_, ?_, ?_⟩
  · intro ct hct
    simp [sanitizeValue, hct]
  · intro n hs hp
    have hne : PyVal.vStr s ≠ PyVal.vStr "" := by simpa using hs
    constructor <;> simp [sanitizeValue, hne, isStringType, hp]
  · intro hs hp
    have hne : PyVal.vStr s ≠ PyVal.vStr "" := by simpa using hs
    constructor <;> simp [sanitizeValue, hne, isStringType, hp]
  · intro q hs hp
    have hne : PyVal.vStr s ≠ PyVal.vStr "" := by simpa using hs
    simp [sanitizeValue, hne, isStringType, hp]
  · intro hs hp
    have hne : PyVal.vStr s ≠ PyVal.vStr "" := by simpa using hs
    simp [sanitizeValue, hne, isStringType, hp]
  · intro hs htrue
    have hne : PyVal.vStr s ≠ PyVal.vStr "" := by simpa using hs
    simp [sanitizeValue, hne, isStringType, htrue]
  · intro hs h1 h2 h3 h4 h5 h6
    have hne : PyVal.vStr s ≠ PyVal.vStr "" := by simpa using hs
    simp [sanitizeValue, hne, isStringType, h1, h2, h3, h4, h5, h6]

/-- Witness for C7 (amended) at concrete strings: `"42"` is coerced,
`"abc"` passes through on an integer column, and `"maybe"` becomes `None`
on a Boolean column. -/
theorem c7_sanitize_coercion_witness :
    sanitizeValue ColType.cInteger (PyVal.vStr "42") = PyVal.vInt 42
    ∧ sanitizeValue ColType.cInteger (PyVal.vStr "abc") = PyVal.vStr "abc"
    ∧ sanitizeValue ColType.cBoolean (PyVal.vStr "maybe") = PyVal.vNone :=
  ⟨((c7_sanitize_coercion "42").2.1 42 (by decide) (by decide)).1,
    ((c7_sanitize_coercion "abc").2.2.1 (by decide) (by decide)).1,
    (c7_sanitize_coercion "maybe").2.2.2.2.2.2 (by decide) (by decide)
      (by decide) (by decide) (by decide) (by decide) (by decide)⟩

/-- C9: `sync_all_tables` attempts every table of the fixed dependency
order regardless of individual failures — the results list covers each
table in order, each entry's status matching that table's own outcome — and
the one-time static regeneration job is scheduled iff at least one table's
sync succeeded. -/
theorem c9_continue_past_failures (attempt : String → Except String Nat) :
    ((syncAllTables attempt).1.map (fun r => r.table) = TABLES_TO_SYNC)
    ∧ (∀ t ∈ TABLES_TO_SYNC, ∃ r ∈ (syncAllTables attempt).1,
        r.table = t ∧ (r.success = true ↔ ∃ n, attempt t = Except.ok n))
    ∧ ((syncAllTables attempt).2 = true ↔
        ∃ t ∈ TABLES_TO_SYNC, ∃ n, attempt t = Except.ok n) := by
  refine ⟨syncAllLoop_table_map attempt TABLES_TO_SYNC,
    fun t ht => syncAllLoop_mem attempt TABLES_TO_SYNC t ht, ?_⟩
  simp only [syncAllTables, decide_eq_true_eq]
  exact syncAllLoop_success_iff attempt TABLES_TO_SYNC

/-- Witness for C9 at a concrete run where only `district` succeeds: every
table still has a result entry and regeneration is scheduled. -/
theorem c9_continue_past_failures_witness :
    ((syncAllTables (fun t =>
        if t = "district" then Except.ok 4 else Except.error "down")).1.map
      (fun r => r.table) = TABLES_TO_SYNC)
    ∧ (∃ r ∈ (syncAllTables (fun t =>
        if t = "district" then Except.ok 4 else Except.error "down")).1,
        r.table = "district" ∧
          (r.success = true ↔ ∃ n,
            (if "district" = "district" then Except.ok 4
              else Except.error "down") = Except.ok n))
    ∧ (syncAllTables (fun t =>
        if t = "district" then Except.ok 4 else Except.error "down")).2 =
      true :=
  ⟨(c9_continue_past_failures _).1,
    (c9_continue_past_failures _).2.1 "district" (by decide),
    ((c9_continue_past_failures _).2.2).mpr ⟨"district", by decide, 4, rfl⟩⟩

end BskSync

